import Mathlib

/-!
Verification development for `exosyspop/populations.py` (class `BinaryPopulation`).

The Python source is shallowly embedded: the per-star population table becomes a
`PopState` (a map from column name to per-row optional rationals, `none` playing the
role of NaN, together with the `_not_calculated` pending list); numpy arrays become
functions `Fin n → ℚ`; external randomness (uniform, normal, rayleigh, binomial
draws) is passed in as explicit draw streams; the scikit-learn regression primitive,
declared an external interface, is abstracted to the record of which table rows are
used to fit and which rows are used to score each pipeline.
-/

/-- A list of floating point numbers, one per star, where `none` stands for NaN
(the marker the source uses for missing values). -/
abbrev Col (n : ℕ) := Fin n → Option ℚ

/-- State of the population object: the `stars` DataFrame columns and the
`_not_calculated` list (`BinaryPopulation.__init__`, lines 129-133). -/
structure PopState (n : ℕ) where
  cols : String → Col n
  not_calculated : List String

/-- Column groups from the class attributes `physical_props`, `orbital_props`,
`obs_props` (lines 91-99). -/
def physical_props : List String :=
  ["mass_A", "radius_A", "mass_B", "radius_B", "flux_ratio"]

/-- Orbital property column names (lines 94-97), in source order. -/
def orbital_props : List String :=
  ["period", "ecc", "w", "inc", "a", "aR", "b_pri", "b_sec", "k", "tra", "occ",
   "d_pri", "d_sec", "T14_pri", "T14_sec", "T23_pri", "T23_sec"]

/-- Observation property column names (line 99). -/
def obs_props : List String := ["dataspan", "dutycycle"]

/-- Pending list created by `__init__` (lines 129-131) for a star catalog that
provides none of the generated columns: every generated column is pending. -/
def init_not_calculated : List String :=
  physical_props ++ orbital_props ++ obs_props

/-- Population state right after `__init__` on a star catalog providing none of the
generated columns: all generated columns are NaN (lines 132-133) and pending. -/
def init_pop (n : ℕ) : PopState n :=
  { cols := fun _ _ => none, not_calculated := init_not_calculated }

variable {n : ℕ}

/-- Embeds `BinaryPopulation._mark_calculated` (lines 158-163): remove the first
occurrence of `p` from `_not_calculated` (`list.index` + `list.pop`); a
`ValueError` when absent is swallowed, so the state is unchanged in that case.
`List.erase` has exactly these semantics. -/
def mark_calculated (s : PopState n) (p : String) : PopState n :=
  { s with not_calculated := s.not_calculated.erase p }

/-- Embeds `BinaryPopulation._remove_prop` (lines 165-167): set the whole column to
NaN and append the name to `_not_calculated` (unconditionally). -/
def remove_prop (s : PopState n) (p : String) : PopState n :=
  { cols := fun c => if c = p then fun _ => none else s.cols c,
    not_calculated := s.not_calculated ++ [p] }

/-- Embeds the column assignment `self.stars.loc[:, c] = v` used throughout the
source when a whole column is written. -/
def set_col (s : PopState n) (c : String) (v : Col n) : PopState n :=
  { s with cols := fun c2 => if c2 = c then v else s.cols c2 }

/-- Embeds the dispatch test of `BinaryPopulation.__getattr__` (line 148): an
attribute access runs the responsible generator exactly when the name is in
`_not_calculated`. -/
def access_triggers_regen (s : PopState n) (p : String) : Bool :=
  decide (p ∈ s.not_calculated)

/-- Modelled from the spec: `draw_powerlaw` lives in `exosyspop/utils.py`, which is
not among the sources here. The spec says the mass ratio is drawn "from a power law
over [max(declared minimum, isochrone-minimum-mass/primary-mass), 1]", so a draw
lies in the closed interval between its bounds. -/
def draw_powerlaw_support (lo hi x : ℚ) : Prop := lo ≤ x ∧ x ≤ hi

/-- Embeds the secondary-property assembly of `BinaryPopulation._generate_binaries`
(lines 277 and 292-306).  Inputs: primary masses, drawn mass ratios `q`, the binary
mask `b` (Bernoulli draws against `fB`, line 241), the regressed secondary radii
`R2` and flux ratios `fluxr` for the binary rows.  The source builds
`mass_B = np.zeros(N); mass_B[b] = q*mass_A[b]; mass_B[~b] = nan` and likewise for
`radius_B`, but for `fluxrat` it only does `fluxrat = np.zeros(N);
fluxrat[b] = flux_ratio` — the non-binary rows are left at `0`, never set to NaN.
Returns the `(mass_B, radius_B, flux_ratio)` columns. -/
def generate_binaries (massA q : Fin n → ℚ) (b : Fin n → Bool)
    (R2 fluxr : Fin n → ℚ) : Col n × Col n × Col n :=
  (fun i => if b i then some (q i * massA i) else none,
   fun i => if b i then some (R2 i) else none,
   fun i => if b i then some (fluxr i) else some 0)

/-- Periastron separation `peri = a*(1-ecc)` (lines 361 and 365). -/
def periastron (a e : ℚ) : ℚ := a * (1 - e)

/-- Embeds the `tooclose` mask of `BinaryPopulation._generate_orbits` (lines 362
and 366): `(radius_A + radius_B)*RSUN > 3*rochelobe(1/q)*peri`.  `rochelobe` is
defined in the absent `exosyspop/utils.py`, so it is taken as an abstract function
argument (the claims proved below hold for any such function), and the constant
`RSUN` is likewise a parameter. -/
def tooclose (Rsun : ℚ) (roche : ℚ → ℚ) (rA rB a q e : ℚ) : Bool :=
  decide ((rA + rB) * Rsun > 3 * roche (1 / q) * periastron a e)

/-- Embeds the first circularization stage (line 363):
`ecc[tooclose] = np.random.rayleigh(0.03)`.  The right-hand side is a single
scalar draw `r` (no `size` argument), assigned to every flagged entry. -/
def ecc_rayleigh_pass (Rsun : ℚ) (roche : ℚ → ℚ) (rA rB a q ecc : Fin n → ℚ)
    (r : ℚ) : Fin n → ℚ :=
  fun i => if tooclose Rsun roche (rA i) (rB i) (a i) (q i) (ecc i) then r else ecc i

/-- Embeds the full two-stage circularization correction of
`BinaryPopulation._generate_orbits` (lines 360-368): first the Rayleigh pass on the
systems flagged with the original eccentricities, then the periastron is recomputed
with the new eccentricities, and every system still flagged has its eccentricity
set to exactly 0. -/
def circularize (Rsun : ℚ) (roche : ℚ → ℚ) (rA rB a q ecc : Fin n → ℚ)
    (r : ℚ) : Fin n → ℚ :=
  let ecc1 := ecc_rayleigh_pass Rsun roche rA rB a q ecc r
  fun i => if tooclose Rsun roche (rA i) (rB i) (a i) (q i) (ecc1 i) then 0 else ecc1 i

/-- Minimum orbital period allowed, class attribute `min_period = 1.` (line 107). -/
def min_period : ℚ := 1

/-- Embeds one replacement sweep of `BinaryPopulation._sample_period` (lines
321-322): each entry below `minP` is replaced by the next fresh draw from the
stream `draw` (the stream models the i.i.d. values `10**normal(...)*365.25`);
entries at or above `minP` are kept.  Returns the new list and the next unused
stream index. -/
def replace_bad (minP : ℚ) (draw : ℕ → ℚ) : List ℚ → ℕ → List ℚ × ℕ
  | [], k => ([], k)
  | p :: ps, k =>
    if p < minP then
      (draw k :: (replace_bad minP draw ps (k + 1)).1, (replace_bad minP draw ps (k + 1)).2)
    else
      (p :: (replace_bad minP draw ps k).1, (replace_bad minP draw ps k).2)

/-- Embeds the rejection loop of `BinaryPopulation._sample_period` (lines 318-324):
`bad = period < min_period`; while any entry is bad, redraw the bad entries and
recompute the mask.  The loop's termination depends on the random stream, so it is
run with explicit fuel; `none` means the fuel ran out before the loop finished,
`some ps` is a normal return. -/
def sample_period_aux (minP : ℚ) (draw : ℕ → ℚ) :
    ℕ → List ℚ → ℕ → Option (List ℚ)
  | 0, ps, _ => if ps.all (fun p => decide (minP ≤ p)) then some ps else none
  | fuel + 1, ps, k =>
    if ps.all (fun p => decide (minP ≤ p)) then some ps
    else sample_period_aux minP draw fuel
      (replace_bad minP draw ps k).1 (replace_bad minP draw ps k).2

/-- Embeds `BinaryPopulation._sample_period` (lines 310-326): draw `N` initial
periods from the stream (line 317), then run the rejection loop with floor
`min_period`. -/
def sample_period (draw : ℕ → ℚ) (N fuel : ℕ) : Option (List ℚ) :=
  sample_period_aux min_period draw fuel ((List.range N).map draw) N

/-- Embeds `np.random.binomial(nt, p)` (lines 561 and 564) as the number of
successes among `nt` independent uniform draws from the stream `u` compared
against the success probability `p`. -/
def binomial_draw (u : ℕ → ℚ) (nt : ℕ) (p : ℚ) : ℕ :=
  ((List.range nt).filter (fun j => decide (u j < p))).length

/-- Embeds the duty-cycle degradation loop of `BinaryPopulation.observe` (lines
554-564) for one eclipse type: the observed counts start at zero and, only when
the ideal (perfect-duty-cycle) count is positive, are replaced by a binomial draw
with the ideal count as the number of trials and the per-star duty cycle as the
success probability. -/
def observe_counts (nIdeal : Fin n → ℕ) (u : Fin n → ℕ → ℚ)
    (duty : Fin n → ℚ) : Fin n → ℕ :=
  fun i => if 0 < nIdeal i then binomial_draw (u i) (nIdeal i) (duty i) else 0

/-- Embeds one iteration of the loop over dataspan and dutycycle in
`BinaryPopulation.observe` (lines 517-527): if the variable is pending and no
argument was supplied, raise the ValueError whose message names the variable
followed by the words must be provided; if it
is pending and supplied, write it into the table and mark it calculated; if it is
already known, a supplied argument overwrites the column and a missing argument
leaves the state alone. -/
def check_obs_var (s : PopState n) (v : String) (arg : Option ℚ) :
    Except String (PopState n) :=
  if v ∈ s.not_calculated then
    match arg with
    | none => Except.error (v ++ " must be provided")
    | some x => Except.ok (mark_calculated (set_col s v fun _ => some x) v)
  else
    match arg with
    | none => Except.ok s
    | some x => Except.ok (set_col s v fun _ => some x)

/-- Embeds the whole survey-parameter check of `BinaryPopulation.observe` (lines
517-527): `dataspan` is processed first, then `dutycycle`; an error aborts the
call. -/
def observe_check_obsdata (s : PopState n) (dataspan dutycycle : Option ℚ) :
    Except String (PopState n) :=
  match check_obs_var s ("dataspan") dataspan with
  | Except.error e => Except.error e
  | Except.ok s1 => check_obs_var s1 ("dutycycle") dutycycle

/-- Which generators an `observe` call runs (lines 509-515): `fit_trap=True`
forces `new=True`; `new` runs both `_generate_binaries` and `_generate_orbits`;
otherwise `new_orbits` runs `_generate_orbits` alone. -/
structure GenFlags where
  gen_binaries : Bool
  gen_orbits : Bool
deriving DecidableEq

/-- Embeds the regeneration dispatch at the top of `BinaryPopulation.observe`
(lines 509-515). -/
def observe_regen (fit_trap new_ new_orbits : Bool) : GenFlags :=
  let new2 := if fit_trap then true else new_
  if new2 then { gen_binaries := true, gen_orbits := true }
  else if new_orbits then { gen_binaries := false, gen_orbits := true }
  else { gen_binaries := false, gen_orbits := false }

/-- Table effect of `_generate_binaries` (lines 304-308): write the three
secondary columns (with fresh randomly generated values `fresh c`), then mark all
three calculated. -/
def generate_binaries_state (s : PopState n) (fresh : String → Col n) : PopState n :=
  let s1 := [("mass_B"), ("radius_B"), ("flux_ratio")].foldl
    (fun st c => set_col st c (fresh c)) s
  [("mass_B"), ("radius_B"), ("flux_ratio")].foldl (fun st c => mark_calculated st c) s1

/-- Table effect of a full `_generate_orbits` call (lines 422-424): for each
orbital property in source order, write the freshly computed column and mark it
calculated. -/
def generate_orbits_state (s : PopState n) (fresh : String → Col n) : PopState n :=
  orbital_props.foldl (fun st c => mark_calculated (set_col st c (fresh c)) c) s

/-- Table effect of `_generate_orbits(geom_only=True)` (lines 374-382): write and
mark the first six orbital properties, then `_remove_prop` each of the remaining
eleven — unconditionally, whether or not they are already pending. -/
def generate_orbits_geom_only (s : PopState n) (fresh : String → Col n) : PopState n :=
  let s1 := (orbital_props.take 6).foldl
    (fun st c => mark_calculated (set_col st c (fresh c)) c) s
  (orbital_props.drop 6).foldl (fun st c => remove_prop st c) s1

/-- Embeds the generation prefix of `BinaryPopulation.observe` (lines 509-515) at
the state level: run the generators selected by `observe_regen` on the table.
`freshB` and `freshO` stand for the randomly generated physical and orbital
columns of this call. -/
def observe_generate (s : PopState n) (freshB freshO : String → Col n)
    (fit_trap new_ new_orbits : Bool) : PopState n :=
  let flags := observe_regen fit_trap new_ new_orbits
  let s1 := if flags.gen_binaries then generate_binaries_state s freshB else s
  if flags.gen_orbits then generate_orbits_state s1 freshO else s1

/-- Record of which table rows a fitted pipeline was fitted on and which rows the
cached R² score was computed on.  The regression primitive itself
(`Pipeline.fit`/`score`) is an external interface; what the source controls, and
what this record captures, is the row masks of the data passed to each call. -/
structure TrainRecord (m : ℕ) where
  fitRows : Fin m → Bool
  scoreRows : Fin m → Bool

/-- Embeds the train/test split and scoring of
`BinaryPopulation._train_pipelines` (lines 693-700, 709, 716, 741, 746): rows are
indexed after the NaN filter `ok`; `u` is the uniform draw, `itest = u < 0.2`,
`itrain = u >= 0.2`; both the dmag and the qR pipeline are fitted on the training
rows and scored on the test rows (`dmag_pipeline.score(Xtest, ytest)`,
`qR_pipeline.score(Xtest, ytest)`).  Returns the (dmag, qR) records. -/
def train_pipelines (u : Fin m → ℚ) : TrainRecord m × TrainRecord m :=
  let itest : Fin m → Bool := fun i => decide (u i < 1 / 5)
  let itrain : Fin m → Bool := fun i => decide (1 / 5 ≤ u i)
  ({ fitRows := itrain, scoreRows := itest }, { fitRows := itrain, scoreRows := itest })

/-- Embeds the train/test split and scoring of `BinaryPopulation._train_trap`
(lines 830-846, 860-863, 877-880): `itest = (u < 0.2) & ok`,
`itrain = (u >= 0.2) & ok`; each of the three pipelines (depth, duration, slope)
is fitted on the training rows and its cached score is computed by
`pipeline.score(Xtrain, ytrain)` — on the training rows themselves.  Returns the
(depth, duration, slope) records. -/
def train_trap (u : Fin m → ℚ) (ok : Fin m → Bool) :
    TrainRecord m × TrainRecord m × TrainRecord m :=
  let itrain : Fin m → Bool := fun i => decide (1 / 5 ≤ u i) && ok i
  ({ fitRows := itrain, scoreRows := itrain },
   { fitRows := itrain, scoreRows := itrain },
   { fitRows := itrain, scoreRows := itrain })

theorem cols_set_col_same (s : PopState n) (c : String) (v : Col n) :
    (set_col s c v).cols c = v := by
  simp [set_col]

theorem cols_set_col_other (s : PopState n) (c c2 : String) (v : Col n)
    (h : c2 ≠ c) : (set_col s c v).cols c2 = s.cols c2 := by
  simp [set_col, h]

theorem cols_mark_calculated (s : PopState n) (p c : String) :
    (mark_calculated s p).cols c = s.cols c := rfl

theorem nc_set_col (s : PopState n) (c : String) (v : Col n) :
    (set_col s c v).not_calculated = s.not_calculated := rfl

theorem nc_mark_calculated (s : PopState n) (p : String) :
    (mark_calculated s p).not_calculated = s.not_calculated.erase p := rfl

/-- C4: for every property name, marking it calculated and then invalidating it
returns it to the pending set with its stored column values reset (so a
subsequent attribute access dispatches to the responsible generator instead of
reading stale values), and marking an already-known property raises no error and
leaves the state — in particular the pending set — unchanged. -/
theorem mark_then_remove_roundtrip (s : PopState n) (p : String) :
    (p ∈ (remove_prop (mark_calculated s p) p).not_calculated ∧
      access_triggers_regen (remove_prop (mark_calculated s p) p) p = true) ∧
    (∀ i, (remove_prop (mark_calculated s p) p).cols p i = none) ∧
    (p ∉ s.not_calculated → mark_calculated s p = s) := by
  refine ⟨⟨?_, ?_⟩, ?_, ?_⟩
  · simp [remove_prop, mark_calculated]
  · simp [access_triggers_regen, remove_prop]
  · intro i
    simp [remove_prop]
  · intro h
    cases s with
    | mk cols nc =>
      simp [mark_calculated, List.erase_of_not_mem h]

/-- Witness for the roundtrip theorem: `age` is not a pending column of a freshly
initialized population, so marking it calculated is a no-op. -/
theorem mark_then_remove_roundtrip_witness :
    mark_calculated (init_pop 1) ("age") = init_pop 1 :=
  (mark_then_remove_roundtrip (init_pop 1) ("age")).2.2 (by decide)

/-- C5 counterexample: on a freshly initialized population the eleven downstream
orbital columns are already pending, and a geometry-only generation calls
`_remove_prop` on each of them anyway, so afterwards the pending list holds the
column `b_pri` twice — the pending set does not contain each pending column
exactly once. -/
theorem pending_duplicate_cex :
    ((generate_orbits_geom_only (init_pop 1) fun _ _ => some 0)).not_calculated.count
      ("b_pri") = 2 := by decide

/-- C5 amended: marking calculated always preserves the each-pending-column-
exactly-once invariant, and invalidation (`_remove_prop`) preserves it exactly
when the column is not already pending; invalidating an already-pending column
leaves it in the pending list at least twice (which geometry-only generation does
to the downstream orbital columns of a fresh population). -/
theorem pending_unique_preservation (s : PopState n) (p : String) :
    (s.not_calculated.Nodup → (mark_calculated s p).not_calculated.Nodup) ∧
    (s.not_calculated.Nodup → p ∉ s.not_calculated →
      (remove_prop s p).not_calculated.Nodup) ∧
    (p ∈ s.not_calculated → 2 ≤ (remove_prop s p).not_calculated.count p) := by
  refine ⟨?_, ?_, ?_⟩
  · intro h
    exact h.erase p
  · intro h hp
    simp [remove_prop, List.nodup_append]
    exact ⟨h, by simpa using hp⟩
  · intro hp
    have h1 : 0 < s.not_calculated.count p := List.count_pos_iff.mpr hp
    have h2 : (remove_prop s p).not_calculated.count p =
        s.not_calculated.count p + 1 := by
      simp [remove_prop, List.count_append]
    omega

/-- Witness for the pending-invariant theorem: the initial pending list is
duplicate-free and stays so after marking `period` calculated. -/
theorem pending_unique_preservation_witness :
    (mark_calculated (init_pop 1) ("period")).not_calculated.Nodup :=
  (pending_unique_preservation (init_pop 1) ("period")).1 (by decide)

/-- C8: requesting an observed catalog while a per-star survey parameter
(`dataspan` or `dutycycle`) is pending and the corresponding argument was not
supplied fails fast with an error naming the parameter; if both values are
supplied as arguments they are written into the table and marked known, and if
both are already known the check passes the state through untouched. -/
theorem observe_obsdata_check (s : PopState n) (x y : ℚ) :
    (("dataspan") ∈ s.not_calculated →
      ∀ d2 : Option ℚ, observe_check_obsdata s none d2 =
        Except.error ("dataspan must be provided")) ∧
    (("dutycycle") ∈ s.not_calculated →
      observe_check_obsdata s (some x) none =
        Except.error ("dutycycle must be provided")) ∧
    (("dataspan") ∈ s.not_calculated → ("dutycycle") ∈ s.not_calculated →
      ∃ s2, observe_check_obsdata s (some x) (some y) = Except.ok s2 ∧
        (∀ i, s2.cols ("dataspan") i = some x) ∧
        (∀ i, s2.cols ("dutycycle") i = some y) ∧
        s2.not_calculated =
          (s.not_calculated.erase ("dataspan")).erase ("dutycycle")) ∧
    (("dataspan") ∉ s.not_calculated → ("dutycycle") ∉ s.not_calculated →
      observe_check_obsdata s none none = Except.ok s) := by
  refine ⟨?_, ?_, ?_, ?_⟩
  · intro h d2
    simp [observe_check_obsdata, check_obs_var, h]
  · intro h
    by_cases hd : ("dataspan") ∈ s.not_calculated
    · have h2 : ("dutycycle") ∈
          (mark_calculated (set_col s ("dataspan") fun _ => some x)
            ("dataspan")).not_calculated := by
        rw [nc_mark_calculated, nc_set_col]
        exact (List.mem_erase_of_ne (by decide)).mpr h
      simp [observe_check_obsdata, check_obs_var, hd, h2]
    · have h2 : ("dutycycle") ∈
          (set_col s ("dataspan") fun _ => some x).not_calculated := by
        rw [nc_set_col]; exact h
      simp [observe_check_obsdata, check_obs_var, hd, h2]
  · intro h1 h2
    have h2e : ("dutycycle") ∈
        (mark_calculated (set_col s ("dataspan") fun _ => some x)
          ("dataspan")).not_calculated := by
      rw [nc_mark_calculated, nc_set_col]
      exact (List.mem_erase_of_ne (by decide)).mpr h2
    refine ⟨mark_calculated (set_col (mark_calculated
        (set_col s ("dataspan") fun _ => some x) ("dataspan"))
        ("dutycycle") fun _ => some y) ("dutycycle"), ?_, ?_, ?_, ?_⟩
    · simp [observe_check_obsdata, check_obs_var, h1, h2e]
    · intro i
      rw [cols_mark_calculated,
        cols_set_col_other _ _ _ _ (by decide), cols_mark_calculated,
        cols_set_col_same]
    · intro i
      rw [cols_mark_calculated, cols_set_col_same]
    · rw [nc_mark_calculated, nc_set_col, nc_mark_calculated, nc_set_col]
  · intro h1 h2
    simp [observe_check_obsdata, check_obs_var, h1, h2]

/-- Witness for the observation-check theorem: on a fresh population both survey
parameters are pending, so supplying both as arguments yields a catalog run whose
state has them written and marked known. -/
theorem observe_obsdata_check_witness :
    ∃ s2, observe_check_obsdata (init_pop 1) (some 1) (some 2) = Except.ok s2 ∧
      (∀ i, s2.cols ("dataspan") i = some 1) ∧
      (∀ i, s2.cols ("dutycycle") i = some 2) ∧
      s2.not_calculated =
        ((init_pop 1).not_calculated.erase ("dataspan")).erase ("dutycycle") :=
  (observe_obsdata_check (init_pop 1) 1 2).2.2.1 (by decide) (by decide)

theorem cols_foldl_mark_set (fresh : String → Col n) (c : String) :
    ∀ (l : List String) (s : PopState n), c ∉ l →
      (l.foldl (fun st c2 => mark_calculated (set_col st c2 (fresh c2)) c2) s).cols c
        = s.cols c := by
  intro l
  induction l with
  | nil =>
    intro s h
    rfl
  | cons a l ih =>
    intro s h
    simp only [List.mem_cons, not_or] at h
    rw [List.foldl_cons, ih _ h.2, cols_mark_calculated,
      cols_set_col_other _ _ _ _ h.1]

theorem cols_generate_orbits_state (s : PopState n) (fresh : String → Col n)
    (c : String) (hc : c ∈ orbital_props) :
    (generate_orbits_state s fresh).cols c = fresh c := by
  fin_cases hc <;> rfl

theorem cols_generate_orbits_state_not_mem (s : PopState n)
    (fresh : String → Col n) (c : String) (hc : c ∉ orbital_props) :
    (generate_orbits_state s fresh).cols c = s.cols c :=
  cols_foldl_mark_set fresh c orbital_props s hc

theorem cols_generate_binaries_state (s : PopState n) (fresh : String → Col n)
    (c : String) (hc : c ∈ [("mass_B"), ("radius_B"), ("flux_ratio")]) :
    (generate_binaries_state s fresh).cols c = fresh c := by
  fin_cases hc <;> rfl

/-- C9: `fit_trap=True` forces the `new` behavior, so an `observe` call with the
exact trapezoidal fit enabled regenerates both the physical properties and the
orbital geometry even when the caller passed `new=False` — the population
table's physical and orbital columns are overwritten with this call's freshly
generated values as a side effect. -/
theorem observe_fit_trap_forces_new (s : PopState n)
    (freshB freshO : String → Col n) (new_orbits : Bool) :
    observe_regen true false new_orbits =
      { gen_binaries := true, gen_orbits := true } ∧
    (∀ c, c ∈ [("mass_B"), ("radius_B"), ("flux_ratio")] →
      (observe_generate s freshB freshO true false new_orbits).cols c = freshB c) ∧
    (∀ c, c ∈ orbital_props →
      (observe_generate s freshB freshO true false new_orbits).cols c = freshO c) := by
  have e : observe_generate s freshB freshO true false new_orbits =
      generate_orbits_state (generate_binaries_state s freshB) freshO := rfl
  refine ⟨rfl, ?_, ?_⟩
  · intro c hc
    rw [e, cols_generate_orbits_state_not_mem _ _ _ (by fin_cases hc <;> decide)]
    exact cols_generate_binaries_state s freshB c hc
  · intro c hc
    rw [e]
    exact cols_generate_orbits_state _ freshO c hc

/-- Witness for the `fit_trap` side-effect theorem: on a fresh one-star
population, `observe(fit_trap=True, new=False)` leaves the `period` column equal
to this call's freshly generated orbital values. -/
theorem observe_fit_trap_forces_new_witness :
    (observe_generate (init_pop 1) (fun _ _ => some 1) (fun _ _ => some 2)
      true false false).cols ("period") = fun _ => some 2 :=
  (observe_fit_trap_forces_new (init_pop 1) (fun _ _ => some 1)
    (fun _ _ => some 2) false).2.2 ("period") (by decide)

/-- C2 counterexample: with a single star whose Bernoulli binary draw failed, the
generated flux-ratio column holds `0` and not NaN — the source initializes
`fluxrat = np.zeros(N)` and only overwrites the binary rows, so the claim that
all three secondary columns are NaN for non-binary stars is false. -/
theorem flux_ratio_zero_cex :
    ((generate_binaries (n := 1) (fun _ => 1) (fun _ => 1) (fun _ => false)
      (fun _ => 1) fun _ => 1).2.2 0 = some 0) ∧
    ((generate_binaries (n := 1) (fun _ => 1) (fun _ => 1) (fun _ => false)
      (fun _ => 1) fun _ => 1).2.2 0 ≠ none) :=
  ⟨rfl, by decide⟩

/-- C2 amended: after physical-property generation, the secondary mass and
secondary radius are NaN exactly for the non-binary rows; the flux ratio of a
non-binary row is `0` (not NaN); and every binary row's secondary mass is the
drawn mass ratio times the primary mass, hence at most the primary mass since
the power-law draw lies in its support interval bounded above by 1. -/
theorem generate_binaries_secondary_props (massA q qmin R2 fluxr : Fin n → ℚ)
    (b : Fin n → Bool)
    (hq : ∀ i, b i = true → draw_powerlaw_support (qmin i) 1 (q i))
    (hm : ∀ i, 0 ≤ massA i) :
    (∀ i, (generate_binaries massA q b R2 fluxr).1 i = none ↔ b i = false) ∧
    (∀ i, (generate_binaries massA q b R2 fluxr).2.1 i = none ↔ b i = false) ∧
    (∀ i, b i = false → (generate_binaries massA q b R2 fluxr).2.2 i = some 0) ∧
    (∀ i, b i = true → (generate_binaries massA q b R2 fluxr).1 i =
        some (q i * massA i) ∧ q i * massA i ≤ massA i) := by
  refine ⟨?_, ?_, ?_, ?_⟩
  · intro i
    by_cases h : b i <;> simp [generate_binaries, h]
  · intro i
    by_cases h : b i <;> simp [generate_binaries, h]
  · intro i h
    simp [generate_binaries, h]
  · intro i h
    exact ⟨by simp [generate_binaries, h],
      mul_le_of_le_one_left (hm i) (hq i h).2⟩

/-- Witness for the secondary-property theorem: one binary star with primary
mass 2 and mass ratio 1/2 gets secondary mass 1 ≤ 2. -/
theorem generate_binaries_secondary_props_witness :
    ((generate_binaries (n := 1) (fun _ => 2) (fun _ => 1/2) (fun _ => true)
        (fun _ => 1) fun _ => 1).1 0 = some ((1 : ℚ)/2 * 2)) ∧
    (1 : ℚ)/2 * 2 ≤ 2 :=
  (generate_binaries_secondary_props (fun _ => 2) (fun _ => 1/2) (fun _ => 0)
    (fun _ => 1) (fun _ => 1) (fun _ => true)
    (fun _ _ => ⟨by norm_num, by norm_num⟩) (fun _ => by norm_num)).2.2.2 0 rfl

/-- C3: the circularization correction is a two-stage pass in source order — the
zero-forcing stage re-tests the threshold with the periastron recomputed from
the Rayleigh-pass eccentricities — and after geometry generation a system can
still violate the threshold only if its eccentricity was forced to exactly 0 or
came from the Rayleigh redraw. -/
theorem circularize_two_stage_invariant (Rsun : ℚ) (roche : ℚ → ℚ)
    (rA rB a q ecc : Fin n → ℚ) (r : ℚ) (i : Fin n) :
    (circularize Rsun roche rA rB a q ecc r i =
      (if tooclose Rsun roche (rA i) (rB i) (a i) (q i)
          (ecc_rayleigh_pass Rsun roche rA rB a q ecc r i)
        then 0 else ecc_rayleigh_pass Rsun roche rA rB a q ecc r i)) ∧
    (tooclose Rsun roche (rA i) (rB i) (a i) (q i)
        (circularize Rsun roche rA rB a q ecc r i) = true →
      circularize Rsun roche rA rB a q ecc r i = 0 ∨
      circularize Rsun roche rA rB a q ecc r i = r) := by
  refine ⟨rfl, ?_⟩
  intro h
  by_cases h2 : tooclose Rsun roche (rA i) (rB i) (a i) (q i)
      (ecc_rayleigh_pass Rsun roche rA rB a q ecc r i) = true
  · left
    simp [circularize, h2]
  · exfalso
    have e : circularize Rsun roche rA rB a q ecc r i =
        ecc_rayleigh_pass Rsun roche rA rB a q ecc r i := by
      simp [circularize, h2]
    rw [e] at h
    exact h2 h

/-- Witness for the circularization invariant: a contact-like system (summed
radii 4, separation 1) violates the threshold even with eccentricity 0, and its
final eccentricity is exactly 0. -/
theorem circularize_two_stage_invariant_witness :
    (tooclose 1 (fun _ => 1) 2 2 1 1
      (circularize (n := 1) 1 (fun _ => 1) (fun _ => 2) (fun _ => 2) (fun _ => 1)
        (fun _ => 1) (fun _ => 0) (1/2) 0) = true) ∧
    (circularize (n := 1) 1 (fun _ => 1) (fun _ => 2) (fun _ => 2) (fun _ => 1)
        (fun _ => 1) (fun _ => 0) (1/2) 0 = 0 ∨
      circularize (n := 1) 1 (fun _ => 1) (fun _ => 2) (fun _ => 2) (fun _ => 1)
        (fun _ => 1) (fun _ => 0) (1/2) 0 = 1/2) :=
  ⟨by norm_num [tooclose, periastron, circularize, ecc_rayleigh_pass],
    (circularize_two_stage_invariant 1 (fun _ => 1) (fun _ => 2)
      (fun _ => 2) (fun _ => 1) (fun _ => 1) (fun _ => 0) (1/2) 0).2
      (by norm_num [tooclose, periastron, circularize, ecc_rayleigh_pass])⟩

/-- C10: the first circularization stage assigns one scalar Rayleigh draw per
batch: any two systems flagged too-close in the same geometry-generation call
receive the identical eccentricity, namely the shared scalar `r`. -/
theorem rayleigh_pass_single_scalar (Rsun : ℚ) (roche : ℚ → ℚ)
    (rA rB a q ecc : Fin n → ℚ) (r : ℚ) (i j : Fin n)
    (hi : tooclose Rsun roche (rA i) (rB i) (a i) (q i) (ecc i) = true)
    (hj : tooclose Rsun roche (rA j) (rB j) (a j) (q j) (ecc j) = true) :
    ecc_rayleigh_pass Rsun roche rA rB a q ecc r i = r ∧
    ecc_rayleigh_pass Rsun roche rA rB a q ecc r i =
      ecc_rayleigh_pass Rsun roche rA rB a q ecc r j := by
  simp [ecc_rayleigh_pass, hi, hj]

/-- Witness for the shared-scalar theorem: two too-close systems in one batch
both end the Rayleigh pass with the same eccentricity. -/
theorem rayleigh_pass_single_scalar_witness :
    (ecc_rayleigh_pass (n := 2) 1 (fun _ => 1) (fun _ => 2) (fun _ => 2)
      (fun _ => 1) (fun _ => 1) (fun _ => 0) (1/2) 0 = 1/2) ∧
    (ecc_rayleigh_pass (n := 2) 1 (fun _ => 1) (fun _ => 2) (fun _ => 2)
        (fun _ => 1) (fun _ => 1) (fun _ => 0) (1/2) 0 =
      ecc_rayleigh_pass (n := 2) 1 (fun _ => 1) (fun _ => 2) (fun _ => 2)
        (fun _ => 1) (fun _ => 1) (fun _ => 0) (1/2) 1) :=
  rayleigh_pass_single_scalar 1 (fun _ => 1) (fun _ => 2) (fun _ => 2)
    (fun _ => 1) (fun _ => 1) (fun _ => 0) (1/2) 0 1
    (by norm_num [tooclose, periastron]) (by norm_num [tooclose, periastron])

/-- C6: for every retained system and each eclipse type independently, the
observed eclipse count is the binomial draw with the ideal (perfect-duty-cycle)
count as the number of trials and the per-star duty cycle as success
probability exactly when the ideal count is positive, is 0 otherwise, and in
all cases never exceeds the corresponding ideal count. -/
theorem observe_counts_le_ideal (nPri nSec : Fin n → ℕ) (uPri uSec : Fin n → ℕ → ℚ)
    (duty : Fin n → ℚ) (i : Fin n) :
    observe_counts nPri uPri duty i ≤ nPri i ∧
    observe_counts nSec uSec duty i ≤ nSec i ∧
    (0 < nPri i → observe_counts nPri uPri duty i =
      binomial_draw (uPri i) (nPri i) (duty i)) ∧
    (nPri i = 0 → observe_counts nPri uPri duty i = 0) := by
  have hb : ∀ (u : ℕ → ℚ) (nt : ℕ) (p : ℚ), binomial_draw u nt p ≤ nt := by
    intro u nt p
    have h1 : ((List.range nt).filter fun j => decide (u j < p)).length ≤
        (List.range nt).length := List.length_filter_le _ _
    simpa [binomial_draw] using h1
  refine ⟨?_, ?_, ?_, ?_⟩
  · by_cases h : 0 < nPri i
    · simpa [observe_counts, h] using hb (uPri i) (nPri i) (duty i)
    · simp [observe_counts, h]
  · by_cases h : 0 < nSec i
    · simpa [observe_counts, h] using hb (uSec i) (nSec i) (duty i)
    · simp [observe_counts, h]
  · intro h
    simp [observe_counts, h]
  · intro h
    simp [observe_counts, h]

/-- Witness for the binomial-degradation theorem: a system with 2 ideal primary
eclipses is thinned via the binomial draw and observes at most 2. -/
theorem observe_counts_le_ideal_witness :
    (observe_counts (n := 1) (fun _ => 2) (fun _ k => (k : ℚ)) (fun _ => 1) 0 ≤ 2) ∧
    observe_counts (n := 1) (fun _ => 2) (fun _ k => (k : ℚ)) (fun _ => 1) 0 =
      binomial_draw (fun k => (k : ℚ)) 2 1 :=
  ⟨(observe_counts_le_ideal (fun _ => 2) (fun _ => 2) (fun _ k => (k : ℚ))
      (fun _ k => (k : ℚ)) (fun _ => 1) 0).1,
    (observe_counts_le_ideal (n := 1) (fun _ => 2) (fun _ => 2) (fun _ k => (k : ℚ))
      (fun _ k => (k : ℚ)) (fun _ => 1) 0).2.2.1 (by decide)⟩

theorem replace_bad_length (minP : ℚ) (draw : ℕ → ℚ) :
    ∀ (ps : List ℚ) (k : ℕ), (replace_bad minP draw ps k).1.length = ps.length := by
  intro ps
  induction ps with
  | nil =>
    intro k
    rfl
  | cons p ps ih =>
    intro k
    by_cases h : p < minP <;> simp [replace_bad, h, ih]

theorem sample_period_aux_floor (minP : ℚ) (draw : ℕ → ℚ) :
    ∀ (fuel : ℕ) (ps : List ℚ) (k : ℕ) (res : List ℚ),
      sample_period_aux minP draw fuel ps k = some res →
      res.length = ps.length ∧ ∀ p ∈ res, minP ≤ p := by
  intro fuel
  induction fuel with
  | zero =>
    intro ps k res h
    by_cases hall : ps.all fun p => decide (minP ≤ p)
    · rw [sample_period_aux, if_pos hall] at h
      obtain rfl := Option.some.inj h
      exact ⟨rfl, fun p hp => by simpa using List.all_eq_true.mp hall p hp⟩
    · rw [sample_period_aux, if_neg hall] at h
      exact absurd h (by simp)
  | succ fuel ih =>
    intro ps k res h
    by_cases hall : ps.all fun p => decide (minP ≤ p)
    · rw [sample_period_aux, if_pos hall] at h
      obtain rfl := Option.some.inj h
      exact ⟨rfl, fun p hp => by simpa using List.all_eq_true.mp hall p hp⟩
    · rw [sample_period_aux, if_neg hall] at h
      obtain ⟨h1, h2⟩ := ih _ _ _ h
      exact ⟨h1.trans (replace_bad_length minP draw ps k), h2⟩

/-- C7: whenever `_sample_period` returns (it rejection-resamples until no draw
is below the floor), every one of the `N` returned periods is at least the
minimum period, and the default floor `min_period` is 1 day. -/
theorem sample_period_min_floor (draw : ℕ → ℚ) (N fuel : ℕ) (ps : List ℚ)
    (h : sample_period draw N fuel = some ps) :
    ps.length = N ∧ (∀ p ∈ ps, min_period ≤ p) ∧ (∀ p ∈ ps, 1 ≤ p) := by
  obtain ⟨h1, h2⟩ := sample_period_aux_floor min_period draw fuel _ _ _ h
  exact ⟨by simpa using h1, h2, fun p hp => h2 p hp⟩

/-- Witness for the period-floor theorem: with one star and the draw stream
0, 1, 2, ... the initial draw 0 violates the floor, the loop replaces it by the
next draw 1, and the returned sample is `[1]` with minimum ≥ 1. -/
theorem sample_period_min_floor_witness :
    sample_period (fun k => (k : ℚ)) 1 2 = some [1] ∧
    (([(1 : ℚ)].length = 1) ∧ (∀ p ∈ [(1 : ℚ)], min_period ≤ p) ∧
      ∀ p ∈ [(1 : ℚ)], 1 ≤ p) :=
  ⟨by decide, sample_period_min_floor (fun k => (k : ℚ)) 1 2 [1] (by decide)⟩

/-- C1 counterexample: in the trapezoid trainer the depth pipeline's cached R²
is computed on the very rows it was fitted on: with a single row whose uniform
split draw is 1/2 (a training row, since 1/2 ≥ 0.2), that row is simultaneously
a fit row and a score row, so the cached score is not computed on the held-out
test split. -/
theorem train_trap_scores_on_train_cex :
    ((train_trap (m := 1) (fun _ => 1/2) fun _ => true).1.scoreRows 0 = true) ∧
    ((train_trap (m := 1) (fun _ => 1/2) fun _ => true).1.fitRows 0 = true) := by
  norm_num [train_trap]

/-- C1 amended: the dmag and radius-ratio pipelines of `_train_pipelines` are
scored on the held-out ≈20% test split, disjoint from the rows they were fitted
on; the three trapezoid-shape pipelines of `_train_trap` (depth, duration,
slope) compute their cached R² on exactly the rows they were fitted on — the
training split — not on the held-out split. -/
theorem train_split_scoring (u : Fin m → ℚ) (ok : Fin m → Bool) (i : Fin m) :
    ((train_pipelines u).1.scoreRows i = true →
      (train_pipelines u).1.fitRows i = false) ∧
    ((train_pipelines u).2.scoreRows i = true →
      (train_pipelines u).2.fitRows i = false) ∧
    (train_trap u ok).1.scoreRows = (train_trap u ok).1.fitRows ∧
    (train_trap u ok).2.1.scoreRows = (train_trap u ok).2.1.fitRows ∧
    (train_trap u ok).2.2.scoreRows = (train_trap u ok).2.2.fitRows := by
  refine ⟨?_, ?_, rfl, rfl, rfl⟩
  · intro h
    simp only [train_pipelines, decide_eq_true_eq] at h
    simp only [train_pipelines, decide_eq_false_iff_not]
    exact not_le.mpr h
  · intro h
    simp only [train_pipelines, decide_eq_true_eq] at h
    simp only [train_pipelines, decide_eq_false_iff_not]
    exact not_le.mpr h

/-- Witness for the scoring-split theorem: a row with split draw 1/10 is a test
row for the dmag pipeline, hence not one of its fit rows. -/
theorem train_split_scoring_witness :
    (train_pipelines (m := 1) fun _ => 1/10).1.fitRows 0 = false :=
  (train_split_scoring (fun _ => 1/10) (fun _ => true) 0).1
    (by norm_num [train_pipelines])
